import Mathlib

/-!
# Verification of the Searchless-Chess-Trainer blunder pipeline

A shallow embedding of the blunder detection and review pipeline:

* `blunder_scanner.py` — the per-move two-tier blunder detection
  (`scan_pgn_file`, `get_pwin_after_move`), the resume / skip logic, the
  game loop with its checkpoint schedule and error handling;
* `blunder_data_manager.py` — the training-set filter
  (`_filter_and_sort_training_blunders`), filter-mode switching and the
  cursor (`next_blunder`, `prev_blunder`, `get_current_blunder`);
* `learned_blunder_tracker.py` — the per-position learning store
  (`record_attempt`, `is_blunder_solved`, `reset_blunder_solved_status`).

Python floats are modelled as rationals (`Rat`); Python dicts keyed by FEN
strings as association lists; JSON records with possibly-missing keys as
structures of `Option` fields.  The chess library and the neural engines are
external collaborators and appear only through the values they return
(positions are opaque FEN strings; an engine is a function from a FEN and a
requested move count to a ranked move list).
-/

/-- A chess color, `chess.WHITE` / `chess.BLACK`. -/
inductive Color where
  | white
  | black
deriving Repr, DecidableEq

/-- `chess.COLOR_NAMES[color]` as used when a record is emitted. -/
def COLOR_NAMES : Color → String
  | .white => "white"
  | .black => "black"

/-- Outcome of a finished game, the value of `board.result(claim_draw=True)`:
`"1-0"`, `"0-1"`, or anything else (draw). -/
inductive GameResult where
  | whiteWins
  | blackWins
  | draw
deriving Repr, DecidableEq

/-- One entry of the list returned by
`SearchlessEngineManager.get_top_moves_with_eval`: a dict
`{'san': ..., 'uci': ..., 'p_win': ...}` (engines.py line 136). -/
structure TopMove where
  san : String
  uci : String
  p_win : Rat
deriving Repr, DecidableEq

/-- The engine manager, reduced to the one query the scanner uses:
`get_top_moves_with_eval(board, engine_name, num_moves)`.  The board argument
is its FEN.  Both tiers ("9M" and "136M") are addressed through the engine
name, exactly as in the source. -/
structure SearchlessEngineManager where
  get_top_moves_with_eval : String → String → Nat → List TopMove

/-- Python's `round(x, 4)` (round half to even), on the exact rational. -/
def roundHalfEven (x : Rat) : Int :=
  let f : Int := ⌊x⌋
  let frac : Rat := x - f
  if frac < 1/2 then f
  else if 1/2 < frac then f + 1
  else if f % 2 = 0 then f else f + 1

/-- `round(x, 4)` as applied to every probability stored in a record. -/
def round4 (x : Rat) : Rat := (roundHalfEven (x * 10000) : Rat) / 10000

/-- The position after the tracked player's move: its FEN, whether
`is_game_over(claim_draw=True)` holds, and the game result used when it
does. -/
structure PosAfter where
  fen : String
  is_game_over : Bool
  result : GameResult
deriving Repr, DecidableEq

/-- `get_pwin_after_move` (blunder_scanner.py lines 36-48): on a terminal
position resolve from the game result for the mover; otherwise query the
engine for the opponent's best reply and return `1 - p_win`. -/
def get_pwin_after_move (engine_mgr : SearchlessEngineManager)
    (engine_name_to_use : String) (board_after_player_move : PosAfter)
    (player_who_made_move : Color) : Option Rat :=
  if board_after_player_move.is_game_over then
    match board_after_player_move.result with
    | .whiteWins => some (if player_who_made_move = .white then 1 else 0)
    | .blackWins => some (if player_who_made_move = .white then 0 else 1)
    | .draw => some (1/2)
  else
    match engine_mgr.get_top_moves_with_eval board_after_player_move.fen
        engine_name_to_use 1 with
    | [] => none
    | m :: _ => some (1 - m.p_win)

/-- One mainline node as the scanner's game loop sees it: whose turn it is
at the node, the FEN before the move, the move in UCI and SAN, `board.ply()`
before the push, and the position reached after the move. -/
structure Ply where
  turn : Color
  fenBefore : String
  moveUci : String
  moveSan : String
  plyNumber : Nat
  afterPos : PosAfter
deriving Repr, DecidableEq

/-- A confirmed blunder record, with the exact key set written by
`scan_pgn_file` (blunder_scanner.py lines 168-176). -/
structure BlunderRecord where
  game_date : String
  game_index_in_pgn_file : Nat
  ply_number : Nat
  player_color : String
  fen_before_blunder : String
  blunder_move_uci : String
  blunder_move_san : String
  p_win_optimal_9M_before : Rat
  p_win_after_move_9M : Rat
  p_win_drop_9M : Rat
  p_win_optimal_136M_before : Rat
  p_win_after_move_136M : Rat
  p_win_drop_136M : Rat
  top_moves_9M_before_blunder : List TopMove
  top_moves_136M_before_blunder : List TopMove
deriving Repr, DecidableEq

/-- The tier-1 measurement at a node: `(p_win_optimal_9M,
p_win_after_actual_move_9M)`; `none` when either query returned no data
(blunder_scanner.py lines 136-144). -/
def tier1Eval (mgr : SearchlessEngineManager) (node : Ply)
    (tracked_player_color : Color) : Option (Rat × Rat) :=
  let opt : Option Rat :=
    match mgr.get_top_moves_with_eval node.fenBefore "9M" 1 with
    | [] => none
    | m :: _ => some m.p_win
  match opt, get_pwin_after_move mgr "9M" node.afterPos tracked_player_color with
  | some o, some a => some (o, a)
  | _, _ => none

/-- The tier-2 measurement at a node, against the "136M" engine
(blunder_scanner.py lines 151-157). -/
def tier2Eval (mgr : SearchlessEngineManager) (node : Ply)
    (tracked_player_color : Color) : Option (Rat × Rat) :=
  let opt : Option Rat :=
    match mgr.get_top_moves_with_eval node.fenBefore "136M" 1 with
    | [] => none
    | m :: _ => some m.p_win
  match opt, get_pwin_after_move mgr "136M" node.afterPos tracked_player_color with
  | some o, some a => some (o, a)
  | _, _ => none

/-- The body of the scanner's per-node loop (blunder_scanner.py lines
129-183): skip opponent moves; tier-1 check against "9M"; tier-2 check
against "136M"; only when both drops reach the threshold emit the record
with the top-N report lists from both engines. -/
def processPly (mgr : SearchlessEngineManager) (blunder_threshold : Rat)
    (num_top_moves_to_report : Nat) (tracked_player_color : Color)
    (game_date : String) (current_game_index : Nat) (node : Ply) :
    Option BlunderRecord :=
  if node.turn ≠ tracked_player_color then none
  else
    match tier1Eval mgr node tracked_player_color with
    | none => none
    | some (o9, a9) =>
      if o9 - a9 < blunder_threshold then none
      else
        match tier2Eval mgr node tracked_player_color with
        | none => none
        | some (o136, a136) =>
          if o136 - a136 < blunder_threshold then none
          else some {
            game_date := game_date
            game_index_in_pgn_file := current_game_index
            ply_number := node.plyNumber
            player_color := COLOR_NAMES tracked_player_color
            fen_before_blunder := node.fenBefore
            blunder_move_uci := node.moveUci
            blunder_move_san := node.moveSan
            p_win_optimal_9M_before := round4 o9
            p_win_after_move_9M := round4 a9
            p_win_drop_9M := round4 (o9 - a9)
            p_win_optimal_136M_before := round4 o136
            p_win_after_move_136M := round4 a136
            p_win_drop_136M := round4 (o136 - a136)
            top_moves_9M_before_blunder :=
              mgr.get_top_moves_with_eval node.fenBefore "9M" num_top_moves_to_report
            top_moves_136M_before_blunder :=
              mgr.get_top_moves_with_eval node.fenBefore "136M" num_top_moves_to_report }

/-- A game as the loop reads it: the `White`, `Black` and `Date` headers and
the mainline nodes. -/
structure Game where
  white : String
  black : String
  date : String
  plies : List Ply
deriving Repr, DecidableEq

/-- Header matching (blunder_scanner.py lines 117-120): the tracked player's
color, or `none` when neither header matches (case-insensitive). -/
def trackedColorOf (tracked_player : String) (g : Game) : Option Color :=
  if tracked_player.toLower = g.white.toLower then some .white
  else if tracked_player.toLower = g.black.toLower then some .black
  else none

/-- Blunders contributed by one game at a given archive index: none when the
tracked player is absent, else the records the per-node loop emits, in
mainline order. -/
def scanGame (mgr : SearchlessEngineManager) (blunder_threshold : Rat)
    (num_top_moves_to_report : Nat) (tracked_player : String)
    (current_game_index : Nat) (g : Game) : List BlunderRecord :=
  match trackedColorOf tracked_player g with
  | none => []
  | some c =>
    g.plies.filterMap
      (processPly mgr blunder_threshold num_top_moves_to_report c g.date
        current_game_index)

/-- The main game loop restricted to its blunder output: scan the games,
numbering them from `start_index` (the archive position of the first one). -/
def scanFrom (mgr : SearchlessEngineManager) (blunder_threshold : Rat)
    (num_top_moves_to_report : Nat) (tracked_player : String) :
    Nat → List Game → List BlunderRecord
  | _, [] => []
  | start_index, g :: gs =>
    scanGame mgr blunder_threshold num_top_moves_to_report tracked_player
        start_index g ++
      scanFrom mgr blunder_threshold num_top_moves_to_report tracked_player
        (start_index + 1) gs

/-- A full one-pass scan of the archive. -/
def fullScan (mgr : SearchlessEngineManager) (blunder_threshold : Rat)
    (num_top_moves_to_report : Nat) (tracked_player : String)
    (games : List Game) : List BlunderRecord :=
  scanFrom mgr blunder_threshold num_top_moves_to_report tracked_player 0 games

/-- The resumed scan: the first session scanned the first `k` games and
checkpointed (`last_game_index_processed = k - 1`, blunders of those games);
the second session loads the checkpoint, skips `k` games and continues from
archive index `k`.  When skipping hits end of file the resume state is
discarded and the scan restarts from game 0 with an empty list
(blunder_scanner.py lines 91-101). -/
def resumeScan (mgr : SearchlessEngineManager) (blunder_threshold : Rat)
    (num_top_moves_to_report : Nat) (tracked_player : String) (k : Nat)
    (games : List Game) : List BlunderRecord :=
  if games.length < k then
    fullScan mgr blunder_threshold num_top_moves_to_report tracked_player games
  else
    scanFrom mgr blunder_threshold num_top_moves_to_report tracked_player 0
        (games.take k) ++
      scanFrom mgr blunder_threshold num_top_moves_to_report tracked_player k
        (games.drop k)

/-! ## The session loop: checkpoints, per-game errors, the top-level handler

`scan_pgn_file`'s `while True` loop (blunder_scanner.py lines 103-197) viewed
per game: a game either raises during processing (the exception escapes the
loop — there is no per-game handler — and is caught by the function-level
`except Exception`, line 202), or the tracked player is absent (`continue` at
line 126, jumping over the checkpoint block), or it is processed normally and
contributes its records, after which a checkpoint is written when the session
counter `games_processed_in_this_session` is a multiple of
`SAVE_PROGRESS_EVERY_N_GAMES`. -/

/-- `SAVE_PROGRESS_EVERY_N_GAMES` (blunder_scanner.py line 21). -/
def SAVE_PROGRESS_EVERY_N_GAMES : Nat := 10

/-- One game as the session loop sees it.  `err` carries the records already
appended to the shared list before the exception was raised mid-game. -/
inductive GameStep where
  | err (recsBeforeError : List BlunderRecord) (msg : String)
  | noTracked
  | ok (recs : List BlunderRecord)
deriving Repr, DecidableEq

/-- Whether this game raises during processing. -/
def GameStep.isErr : GameStep → Bool
  | .err _ _ => true
  | _ => false

/-- The records a game leaves in the shared blunder list. -/
def GameStep.recsOf : GameStep → List BlunderRecord
  | .err r _ => r
  | .noTracked => []
  | .ok r => r

/-- What the loop produced: the final blunder list, every checkpoint write
(game index together with the full list serialized), how many games were
attempted, and whether a per-game exception ended the loop. -/
structure LoopOutcome where
  blunders : List BlunderRecord
  writes : List (Nat × List BlunderRecord)
  gamesAttempted : Nat
  abortedByError : Bool
deriving Repr, DecidableEq

/-- The session loop.  `gi` is the archive index of the next game, `sess` the
session counter so far, `acc` the accumulated blunder list (starting from the
resume-loaded one).  On an error the loop stops — the exception is caught at
function level, which returns the accumulated report — so no later game is
attempted and no further checkpoint happens.  A `noTracked` game advances the
counter but `continue`s past the checkpoint block. -/
def scanLoop : Nat → Nat → List BlunderRecord → List GameStep → LoopOutcome
  | _, _, acc, [] => ⟨acc, [], 0, false⟩
  | gi, sess, acc, g :: gs =>
    match g with
    | .err recsBefore _ => ⟨acc ++ recsBefore, [], 1, true⟩
    | .noTracked =>
      let r := scanLoop (gi + 1) (sess + 1) acc gs
      ⟨r.blunders, r.writes, r.gamesAttempted + 1, r.abortedByError⟩
    | .ok recs =>
      let acc' := acc ++ recs
      let w :=
        if (sess + 1) % SAVE_PROGRESS_EVERY_N_GAMES = 0 then [(gi, acc')] else []
      let r := scanLoop (gi + 1) (sess + 1) acc' gs
      ⟨r.blunders, w ++ r.writes, r.gamesAttempted + 1, r.abortedByError⟩

/-- Blunder records contributed by a list of games. -/
def accumRecs : List GameStep → List BlunderRecord
  | [] => []
  | g :: gs => g.recsOf ++ accumRecs gs

/-- `scan_pgn_file`'s return value at top level (blunder_scanner.py lines
201-204): opening a missing PGN file raises `FileNotFoundError`, which
returns `None`; otherwise the loop runs and the accumulated report is
returned even when an unexpected exception aborted the loop. -/
def scan_pgn_file_outcome (pgn_file_exists : Bool)
    (loaded : List BlunderRecord) (games : List GameStep) : Option LoopOutcome :=
  if pgn_file_exists then some (scanLoop 0 0 loaded games) else none

/-! ## Resume initialisation and the skip phase -/

/-- The state of `output_json_path` when the scan starts: absent, unreadable
(`json.JSONDecodeError` / `IOError`), readable but without the
`scan_progress` / `blunders` keys, or a well-formed report whose
`scan_progress` dict may still lack either key. -/
inductive OutputFileState where
  | absent
  | unreadable
  | oldFormat
  | valid (last_pgn_filepath : Option String)
      (last_game_index_processed : Option Int) (blunders : List BlunderRecord)
deriving Repr, DecidableEq

/-- The resume decision (blunder_scanner.py lines 61-73): the start index
(`last_game_index_processed + 1`, defaulting the missing key to `-1`) and
the loaded blunder list when the stored path matches the current absolute
archive path; a fresh `(0, [])` in every other case. -/
def resumeInit (output_file : OutputFileState) (pgn_filepath_abs : String) :
    Int × List BlunderRecord :=
  match output_file with
  | .valid p last bl =>
    if p = some pgn_filepath_abs then (last.getD (-1) + 1, bl) else (0, [])
  | _ => (0, [])

/-- The skip phase (blunder_scanner.py lines 91-101): when resuming, read and
discard `start` games; hitting end of file first means the archive changed,
so the resume state is discarded (empty list, restart at game 0).  Returns
the archive index of the first game the main loop will process, with the
blunder list it starts from. -/
def skipPhase (start_game_index_from_resume : Int) (archive_games : Nat)
    (loaded : List BlunderRecord) : Nat × List BlunderRecord :=
  if 0 < start_game_index_from_resume then
    if (archive_games : Int) < start_game_index_from_resume then (0, [])
    else (start_game_index_from_resume.toNat, loaded)
  else (0, loaded)

/-! ## The learned-blunder tracker (learned_blunder_tracker.py)

`learned_data` is a Python dict keyed by FEN; we model it as an association
list in insertion order (a new key is appended at the end, an existing key is
updated in place), and `time.time()` as an explicit `now` argument. -/

/-- One element of an entry's `attempts` list (learned_blunder_tracker.py
lines 69-74). -/
structure AttemptRecord where
  uci : String
  pwin_after_9M : Rat
  solved_criteria_met : Bool
  timestamp : Nat
deriving Repr, DecidableEq

/-- One value of `learned_data`, keyed by the blunder FEN
(learned_blunder_tracker.py lines 59-65). -/
structure LearnedEntry where
  attempts : List AttemptRecord
  is_marked_overall_solved : Bool
  last_attempt_timestamp : Option Nat
  original_blunder_move_uci : String
  original_p_win_drop_9M : Rat
deriving Repr, DecidableEq

/-- Dict lookup on the association list. -/
def lookupFen : List (String × LearnedEntry) → String → Option LearnedEntry
  | [], _ => none
  | (k, v) :: rest, fen => if k = fen then some v else lookupFen rest fen

/-- Dict write: update in place, or append a new key at the end. -/
def updateFen : List (String × LearnedEntry) → String → LearnedEntry →
    List (String × LearnedEntry)
  | [], fen, e => [(fen, e)]
  | (k, v) :: rest, fen, e =>
    if k = fen then (fen, e) :: rest else (k, v) :: updateFen rest fen e

/-- The tracker: the keyed store plus the write-behind dirty flag. -/
structure LearnedBlunderTracker where
  learned_data : List (String × LearnedEntry)
  has_unsaved_changes : Bool
deriving Repr, DecidableEq

/-- `record_attempt` (learned_blunder_tracker.py lines 54-84): create the
entry on first use, append the attempt, refresh the timestamp, and mark
overall solved the first time `is_solved_this_attempt` holds. -/
def record_attempt (t : LearnedBlunderTracker) (fen_before_blunder : String)
    (original_blunder_move_uci : String) (original_p_win_drop_9M : Rat)
    (attempted_uci : String) (pwin_after_attempt : Rat)
    (is_solved_this_attempt : Bool) (now : Nat) : LearnedBlunderTracker :=
  let entry : LearnedEntry :=
    match lookupFen t.learned_data fen_before_blunder with
    | some e => e
    | none =>
      { attempts := []
        is_marked_overall_solved := false
        last_attempt_timestamp := none
        original_blunder_move_uci := original_blunder_move_uci
        original_p_win_drop_9M := original_p_win_drop_9M }
  let attempt_record : AttemptRecord :=
    { uci := attempted_uci
      pwin_after_9M := pwin_after_attempt
      solved_criteria_met := is_solved_this_attempt
      timestamp := now }
  let entry' : LearnedEntry :=
    { entry with
      attempts := entry.attempts ++ [attempt_record]
      last_attempt_timestamp := some now
      is_marked_overall_solved :=
        if is_solved_this_attempt ∧ ¬entry.is_marked_overall_solved then true
        else entry.is_marked_overall_solved }
  { t with
    learned_data := updateFen t.learned_data fen_before_blunder entry'
    has_unsaved_changes := true }

/-- `get_blunder_status` (learned_blunder_tracker.py lines 86-88). -/
def get_blunder_status (t : LearnedBlunderTracker)
    (fen_before_blunder : String) : Option LearnedEntry :=
  lookupFen t.learned_data fen_before_blunder

/-- `is_blunder_solved` (learned_blunder_tracker.py lines 90-92). -/
def is_blunder_solved (t : LearnedBlunderTracker)
    (fen_before_blunder : String) : Bool :=
  match get_blunder_status t fen_before_blunder with
  | some status => status.is_marked_overall_solved
  | none => false

/-- `reset_blunder_solved_status` (learned_blunder_tracker.py lines
116-124). -/
def reset_blunder_solved_status (t : LearnedBlunderTracker)
    (fen_before_blunder : String) : LearnedBlunderTracker :=
  match lookupFen t.learned_data fen_before_blunder with
  | some e =>
    if e.is_marked_overall_solved then
      { t with
        learned_data := updateFen t.learned_data fen_before_blunder
          { e with is_marked_overall_solved := false }
        has_unsaved_changes := true }
    else t
  | none => t

/-- A call into the tracker's mutating interface. -/
inductive TrackerOp where
  | record (fen original_uci : String) (original_drop : Rat)
      (attempted_uci : String) (pwin_after : Rat) (solved : Bool) (now : Nat)
  | reset (fen : String)
deriving Repr, DecidableEq

/-- Run one tracker call. -/
def applyTrackerOp (t : LearnedBlunderTracker) : TrackerOp → LearnedBlunderTracker
  | .record fen ouci odrop auci pwin solved now =>
    record_attempt t fen ouci odrop auci pwin solved now
  | .reset fen => reset_blunder_solved_status t fen

/-- Run a sequence of tracker calls in order. -/
def applyTrackerOps (t : LearnedBlunderTracker) : List TrackerOp → LearnedBlunderTracker
  | [] => t
  | op :: ops => applyTrackerOps (applyTrackerOp t op) ops

/-- A position's attempts list (empty when the position has no entry). -/
def attemptsOf (t : LearnedBlunderTracker) (fen : String) : List AttemptRecord :=
  match lookupFen t.learned_data fen with
  | some e => e.attempts
  | none => []

/-! ## The blunder data manager (blunder_data_manager.py)

A persisted record is a loosely-typed JSON dict; we model exactly the keys
`_filter_and_sort_training_blunders` reads, each optional (a missing key, or
a non-dict entry, shows up as `none` fields and is classified malformed). -/

/-- `NEGLIGIBLE_PWIN_DROP_FOR_FAKE_BLUNDER_CHECK` (blunder_data_manager.py
line 7). -/
def NEGLIGIBLE_PWIN_DROP_FOR_FAKE_BLUNDER_CHECK : Rat := 1/100

/-- One entry of a record's `top_moves_9M_before_blunder` list as the filter
reads it: only the `uci` key is probed, and it may be absent. -/
structure RawTopMove where
  uci : Option String
deriving Repr, DecidableEq

/-- One record of the loaded blunder file, restricted to the keys the filter
reads.  `required_keys` presence (line 53) is `isSome` of the four fields. -/
structure RawBlunder where
  p_win_drop_9M : Option Rat
  fen_before_blunder : Option String
  blunder_move_uci : Option String
  top_moves_9M_before_blunder : Option (List RawTopMove)
deriving Repr, DecidableEq

/-- Why the filter kept or skipped a record; the skip cases name the
`skipped_count` buckets (blunder_data_manager.py lines 42-49). -/
inductive FilterVerdict where
  | malformed
  | fake_blunder_negligible_drop
  | fake_blunder_significant_drop_anomaly
  | below_threshold
  | solved_by_pwin_improvement
  | solved_by_finding_engine_top_move
  | keep
deriving Repr, DecidableEq

/-- The per-record body of `_filter_and_sort_training_blunders`
(blunder_data_manager.py lines 51-109), as a classification: the first
matching rule decides.  Missing required keys → malformed; blunder move equal
to the engine's recorded top move → fake (negligible or anomaly by the size
of the recorded drop); below the configured threshold → skipped; then, only
when `show_only_unsolved` is set, the two tracker-based exclusions. -/
def classifyBlunder (threshold : Rat) (show_only_unsolved : Bool)
    (learned_tracker : LearnedBlunderTracker) (b_data : RawBlunder) :
    FilterVerdict :=
  match b_data.p_win_drop_9M, b_data.fen_before_blunder,
      b_data.blunder_move_uci, b_data.top_moves_9M_before_blunder with
  | some p_win_drop, some fen, some blunder_move_uci, some top_moves =>
    let engine_top_move_uci_original : Option String :=
      match top_moves with
      | [] => none
      | m :: _ => m.uci
    if engine_top_move_uci_original = some blunder_move_uci then
      if p_win_drop < NEGLIGIBLE_PWIN_DROP_FOR_FAKE_BLUNDER_CHECK then
        .fake_blunder_negligible_drop
      else .fake_blunder_significant_drop_anomaly
    else if p_win_drop < threshold then .below_threshold
    else if show_only_unsolved then
      if is_blunder_solved learned_tracker fen then .solved_by_pwin_improvement
      else
        match get_blunder_status learned_tracker fen,
            engine_top_move_uci_original with
        | some status, some top_uci =>
          if status.attempts.any (fun a => a.uci = top_uci) then
            .solved_by_finding_engine_top_move
          else .keep
        | _, _ => .keep
    else .keep
  | _, _, _, _ => .malformed

/-- The training set the filter builds: the records classified `keep`, in
file order (blunder_data_manager.py line 109). -/
def filterTrainingBlunders (threshold : Rat) (show_only_unsolved : Bool)
    (learned_tracker : LearnedBlunderTracker)
    (all_blunders_from_file : List RawBlunder) : List RawBlunder :=
  all_blunders_from_file.filter
    (fun b => classifyBlunder threshold show_only_unsolved learned_tracker b ==
      FilterVerdict.keep)

/-- The manager's state (blunder_data_manager.py lines 10-18). -/
structure BlunderDataManager where
  threshold : Rat
  all_blunders_from_file : List RawBlunder
  training_blunders : List RawBlunder
  current_index : Int
  learned_tracker : LearnedBlunderTracker
  show_only_unsolved : Bool
deriving Repr, DecidableEq

/-- `_filter_and_sort_training_blunders` as a state update: recompute
`training_blunders` from the loaded records (the cursor is untouched here;
`set_show_only_unsolved` resets it itself). -/
def filter_and_sort_training_blunders (m : BlunderDataManager) :
    BlunderDataManager :=
  { m with
    training_blunders := filterTrainingBlunders m.threshold
      m.show_only_unsolved m.learned_tracker m.all_blunders_from_file }

/-- `set_show_only_unsolved` (blunder_data_manager.py lines 130-136): only a
real change flips the flag, resets the cursor to `-1` and refilters. -/
def set_show_only_unsolved (m : BlunderDataManager) (show_unsolved : Bool) :
    BlunderDataManager :=
  if m.show_only_unsolved ≠ show_unsolved then
    filter_and_sort_training_blunders
      { m with show_only_unsolved := show_unsolved, current_index := -1 }
  else m

/-- `get_current_blunder` (blunder_data_manager.py lines 138-141). -/
def get_current_blunder (m : BlunderDataManager) : Option RawBlunder :=
  if 0 ≤ m.current_index ∧ m.current_index < m.training_blunders.length then
    m.training_blunders.get? m.current_index.toNat
  else none

/-- `next_blunder` (blunder_data_manager.py lines 143-147); Python's `%` on a
positive modulus agrees with `Int.emod`. -/
def next_blunder (m : BlunderDataManager) : BlunderDataManager :=
  if m.training_blunders ≠ [] then
    { m with
      current_index :=
        (m.current_index + 1) % (m.training_blunders.length : Int) }
  else { m with current_index := -1 }

/-- `prev_blunder` (blunder_data_manager.py lines 149-153). -/
def prev_blunder (m : BlunderDataManager) : BlunderDataManager :=
  if m.training_blunders ≠ [] then
    { m with
      current_index :=
        (m.current_index - 1 + (m.training_blunders.length : Int)) %
          (m.training_blunders.length : Int) }
  else { m with current_index := -1 }

/-! ## Theorems -/

section ScannerTheorems

/-- **C1.** Both tiers gate every emitted record: a record produced by the
per-move loop implies tier-1 and tier-2 measurements were both available and
both measured drops reach the threshold; the record's stored drops are the
rounded measured drops.  (Equivalently: when either tier's drop is below the
threshold or either evaluation is unavailable, the `match`/`if` structure of
`processPly` yields `none`, so no record is created.) -/
theorem scanner_record_requires_both_tier_drops
    (mgr : SearchlessEngineManager) (blunder_threshold : Rat)
    (num_top_moves_to_report : Nat) (tracked_player_color : Color)
    (game_date : String) (current_game_index : Nat) (node : Ply)
    (r : BlunderRecord)
    (h : processPly mgr blunder_threshold num_top_moves_to_report
      tracked_player_color game_date current_game_index node = some r) :
    ∃ o9 a9 o136 a136 : Rat,
      tier1Eval mgr node tracked_player_color = some (o9, a9) ∧
      tier2Eval mgr node tracked_player_color = some (o136, a136) ∧
      blunder_threshold ≤ o9 - a9 ∧
      blunder_threshold ≤ o136 - a136 ∧
      r.p_win_drop_9M = round4 (o9 - a9) ∧
      r.p_win_drop_136M = round4 (o136 - a136) := by
  unfold processPly at h
  split at h
  · exact Option.noConfusion h
  · split at h
    · exact Option.noConfusion h
    · next o9 a9 heq1 =>
      split at h
      · exact Option.noConfusion h
      · next h1 =>
        split at h
        · exact Option.noConfusion h
        · next o136 a136 heq2 =>
          split at h
          · exact Option.noConfusion h
          · next h2 =>
            have hr := Option.some.inj h
            subst hr
            exact ⟨o9, a9, o136, a136, heq1, heq2, not_lt.mp h1,
              not_lt.mp h2, rfl, rfl⟩

/-- Concrete engines for the C1 witness: at FEN "FEN0" tier 1 sees optimal
4/5 and the reply after the move leaves the opponent 2/5; tier 2 sees 3/4
and 9/20. -/
def witnessMgr : SearchlessEngineManager :=
  ⟨fun fen name _ =>
    if fen = "FEN0" then
      if name = "9M" then [⟨"Qd1", "d2d1", 4/5⟩] else [⟨"Qd1", "d2d1", 3/4⟩]
    else
      if name = "9M" then [⟨"Re8", "e7e8", 2/5⟩] else [⟨"Re8", "e7e8", 9/20⟩]⟩

/-- The node at which the C1 witness engines confirm a blunder. -/
def witnessNode : Ply :=
  { turn := .white
    fenBefore := "FEN0"
    moveUci := "g2g4"
    moveSan := "g4"
    plyNumber := 10
    afterPos := { fen := "FEN1", is_game_over := false, result := .draw } }

/-- The record `processPly` emits at the C1 witness inputs. -/
def witnessRecord : BlunderRecord :=
  { game_date := "2024.01.01"
    game_index_in_pgn_file := 0
    ply_number := 10
    player_color := "white"
    fen_before_blunder := "FEN0"
    blunder_move_uci := "g2g4"
    blunder_move_san := "g4"
    p_win_optimal_9M_before := round4 (4/5)
    p_win_after_move_9M := round4 (3/5)
    p_win_drop_9M := round4 (4/5 - 3/5)
    p_win_optimal_136M_before := round4 (3/4)
    p_win_after_move_136M := round4 (11/20)
    p_win_drop_136M := round4 (3/4 - 11/20)
    top_moves_9M_before_blunder := [⟨"Qd1", "d2d1", 4/5⟩]
    top_moves_136M_before_blunder := [⟨"Qd1", "d2d1", 3/4⟩] }

/-- Witness for C1: at the concrete inputs the hypothesis evaluates and the
tier conditions hold. -/
theorem scanner_record_requires_both_tier_drops_witness :
    ∃ o9 a9 o136 a136 : Rat,
      tier1Eval witnessMgr witnessNode Color.white = some (o9, a9) ∧
      tier2Eval witnessMgr witnessNode Color.white = some (o136, a136) ∧
      (1/20 : Rat) ≤ o9 - a9 ∧
      (1/20 : Rat) ≤ o136 - a136 ∧
      witnessRecord.p_win_drop_9M = round4 (o9 - a9) ∧
      witnessRecord.p_win_drop_136M = round4 (o136 - a136) :=
  scanner_record_requires_both_tier_drops witnessMgr (1/20) 3 Color.white
    "2024.01.01" 0 witnessNode witnessRecord
    (by
      simp [processPly, tier1Eval, tier2Eval, get_pwin_after_move, witnessMgr,
        witnessNode, COLOR_NAMES, witnessRecord]
      norm_num)

/-- `scanFrom` distributes over archive concatenation, shifting the index of
the second part by the length of the first. -/
theorem scanFrom_append (mgr : SearchlessEngineManager)
    (blunder_threshold : Rat) (num_top_moves_to_report : Nat)
    (tracked_player : String) (xs : List Game) :
    ∀ (ys : List Game) (i : Nat),
      scanFrom mgr blunder_threshold num_top_moves_to_report tracked_player i
          (xs ++ ys) =
        scanFrom mgr blunder_threshold num_top_moves_to_report tracked_player i
            xs ++
          scanFrom mgr blunder_threshold num_top_moves_to_report tracked_player
            (i + xs.length) ys := by
  induction xs with
  | nil => intro ys i; simp [scanFrom]
  | cons g gs ih =>
    intro ys i
    have hidx : i + 1 + gs.length = i + (gs.length + 1) := by omega
    rw [List.cons_append]
    rw [show scanFrom mgr blunder_threshold num_top_moves_to_report
        tracked_player i (g :: (gs ++ ys)) =
      scanGame mgr blunder_threshold num_top_moves_to_report tracked_player i
          g ++
        scanFrom mgr blunder_threshold num_top_moves_to_report tracked_player
          (i + 1) (gs ++ ys) from rfl]
    rw [ih, List.length_cons, ← List.append_assoc, hidx]
    rfl

/-- **C3.** Resume idempotence: for any fixed engines and archive, scanning
the first `k` games, checkpointing, and resuming (skip `k` games, start from
the checkpointed blunder list, continue at archive index `k`) yields exactly
the one-pass scan's blunder list — same records, same order.  The
end-of-file fallback (`k` larger than the archive) also reproduces the full
scan, because it discards the resume state and restarts from game 0. -/
theorem resumeScan_eq_fullScan (mgr : SearchlessEngineManager)
    (blunder_threshold : Rat) (num_top_moves_to_report : Nat)
    (tracked_player : String) (k : Nat) (games : List Game) :
    resumeScan mgr blunder_threshold num_top_moves_to_report tracked_player k
        games =
      fullScan mgr blunder_threshold num_top_moves_to_report tracked_player
        games := by
  unfold resumeScan
  split
  · rfl
  · rename_i hlen
    have hk : k ≤ games.length := Nat.le_of_not_lt hlen
    unfold fullScan
    conv_rhs => rw [← List.take_append_drop k games]
    rw [scanFrom_append, List.length_take, Nat.min_eq_left hk, Nat.zero_add]

end ScannerTheorems

section TrackerTheorems

/-- Writing a key makes its lookup return the new entry. -/
theorem lookupFen_updateFen_self (l : List (String × LearnedEntry))
    (fen : String) (e : LearnedEntry) :
    lookupFen (updateFen l fen e) fen = some e := by
  induction l with
  | nil => simp [updateFen, lookupFen]
  | cons kv rest ih =>
    obtain ⟨k, v⟩ := kv
    by_cases hk : k = fen
    · subst hk; simp [updateFen, lookupFen]
    · simp [updateFen, lookupFen, hk, ih]

/-- Writing a key leaves every other key's lookup unchanged. -/
theorem lookupFen_updateFen_other (l : List (String × LearnedEntry))
    (fen k : String) (e : LearnedEntry) (hne : k ≠ fen) :
    lookupFen (updateFen l fen e) k = lookupFen l k := by
  induction l with
  | nil => simp [updateFen, lookupFen, Ne.symm hne]
  | cons kv rest ih =>
    obtain ⟨k', v⟩ := kv
    by_cases hk : k' = fen
    · subst hk
      simp [updateFen, lookupFen, Ne.symm hne]
    · simp [updateFen, lookupFen, hk, ih]

/-- A solving attempt marks its position overall solved. -/
theorem is_blunder_solved_after_solving_attempt (t : LearnedBlunderTracker)
    (fen ouci auci : String) (odrop pwin : Rat) (now : Nat) :
    is_blunder_solved (record_attempt t fen ouci odrop auci pwin true now)
      fen = true := by
  unfold record_attempt
  simp only [is_blunder_solved, get_blunder_status, lookupFen_updateFen_self]
  split
  · rfl
  · next hcond =>
    simp only [true_and, Bool.not_eq_true] at hcond
    simp at hcond
    exact hcond

/-- `record_attempt` never unmarks a solved position (same or other key). -/
theorem is_blunder_solved_record_attempt_mono (t : LearnedBlunderTracker)
    (fen fen' ouci auci : String) (odrop pwin : Rat) (solved : Bool)
    (now : Nat) (h : is_blunder_solved t fen = true) :
    is_blunder_solved (record_attempt t fen' ouci odrop auci pwin solved now)
      fen = true := by
  by_cases hfen : fen' = fen
  · subst hfen
    unfold is_blunder_solved get_blunder_status at h
    unfold record_attempt
    simp only [is_blunder_solved, get_blunder_status, lookupFen_updateFen_self]
    cases hl : lookupFen t.learned_data fen' with
    | none => rw [hl] at h; exact absurd h (by simp)
    | some e =>
      rw [hl] at h
      simp only [hl]
      split
      · rfl
      · exact h
  · unfold record_attempt
    simp only [is_blunder_solved, get_blunder_status]
    rw [lookupFen_updateFen_other _ _ _ _ (Ne.symm hfen)]
    exact h

/-- Resetting another position's solved flag does not affect this one. -/
theorem is_blunder_solved_reset_other (t : LearnedBlunderTracker)
    (fen fen' : String) (hne : fen' ≠ fen)
    (h : is_blunder_solved t fen = true) :
    is_blunder_solved (reset_blunder_solved_status t fen') fen = true := by
  unfold reset_blunder_solved_status
  split
  · split
    · simp only [is_blunder_solved, get_blunder_status]
      rw [lookupFen_updateFen_other _ _ _ _ (Ne.symm hne)]
      exact h
    · exact h
  · exact h

/-- **C4.** Solved status is monotone and attempts are append-only: (a) once
a position is marked solved, any sequence of further tracker calls that does
not `reset_blunder_solved_status` that position — solving or non-solving
`record_attempt`s on any position, resets of other positions — leaves
`is_blunder_solved` true; (b) every `record_attempt` call appends exactly one
new element to that position's attempts list; (c) a `record_attempt` with
`is_solved_this_attempt = true` marks the position solved. -/
theorem tracker_solved_monotone_and_append_only (t : LearnedBlunderTracker)
    (fen : String) (ops : List TrackerOp)
    (hsolved : is_blunder_solved t fen = true)
    (hops : ∀ op ∈ ops, op ≠ TrackerOp.reset fen) :
    is_blunder_solved (applyTrackerOps t ops) fen = true ∧
    (∀ (t' : LearnedBlunderTracker) (fen' ouci auci : String)
        (odrop pwin : Rat) (solved : Bool) (now : Nat),
      attemptsOf (record_attempt t' fen' ouci odrop auci pwin solved now)
          fen' =
        attemptsOf t' fen' ++
          [{ uci := auci, pwin_after_9M := pwin,
             solved_criteria_met := solved, timestamp := now }]) ∧
    (∀ (t' : LearnedBlunderTracker) (fen' ouci auci : String)
        (odrop pwin : Rat) (now : Nat),
      is_blunder_solved (record_attempt t' fen' ouci odrop auci pwin true now)
        fen' = true) := by
  refine ⟨?_, ?_, ?_⟩
  · induction ops generalizing t with
    | nil => exact hsolved
    | cons op rest ih =>
      have hrest : ∀ o ∈ rest, o ≠ TrackerOp.reset fen := by
        intro o ho; exact hops o (List.mem_cons_of_mem _ ho)
      cases op with
      | record fen' ouci odrop auci pwin solved now =>
        exact ih _
          (is_blunder_solved_record_attempt_mono t fen fen' ouci auci odrop
            pwin solved now hsolved) hrest
      | reset fen' =>
        have hne : fen' ≠ fen := by
          intro hx
          exact hops (TrackerOp.reset fen') (List.mem_cons_self _ _)
            (by rw [hx])
        exact ih _ (is_blunder_solved_reset_other t fen fen' hne hsolved) hrest
  · intro t' fen' ouci auci odrop pwin solved now
    unfold record_attempt attemptsOf
    simp only [lookupFen_updateFen_self]
    cases hl : lookupFen t'.learned_data fen' with
    | none => simp [hl]
    | some e => simp [hl]
  · intro t' fen' ouci auci odrop pwin now
    exact is_blunder_solved_after_solving_attempt t' fen' ouci auci odrop
      pwin now

/-- The empty tracker store. -/
def emptyTracker : LearnedBlunderTracker := ⟨[], false⟩

/-- A tracker in which `"FENX"` has been solved once. -/
def witnessTracker : LearnedBlunderTracker :=
  record_attempt emptyTracker "FENX" "e2e4" (1/5) "d2d4" (7/10) true 100

/-- The tracker calls exercised by the C4 witness: a later failed attempt on
the same position and a reset of a different position. -/
def witnessOps : List TrackerOp :=
  [TrackerOp.record "FENX" "e2e4" (1/5) "h2h4" (1/2) false 200,
   TrackerOp.reset "OTHER"]

/-- Witness for C4 at a concrete tracker, position, and call sequence. -/
theorem tracker_solved_monotone_and_append_only_witness :
    is_blunder_solved (applyTrackerOps witnessTracker witnessOps) "FENX" =
        true ∧
    (∀ (t' : LearnedBlunderTracker) (fen' ouci auci : String)
        (odrop pwin : Rat) (solved : Bool) (now : Nat),
      attemptsOf (record_attempt t' fen' ouci odrop auci pwin solved now)
          fen' =
        attemptsOf t' fen' ++
          [{ uci := auci, pwin_after_9M := pwin,
             solved_criteria_met := solved, timestamp := now }]) ∧
    (∀ (t' : LearnedBlunderTracker) (fen' ouci auci : String)
        (odrop pwin : Rat) (now : Nat),
      is_blunder_solved (record_attempt t' fen' ouci odrop auci pwin true now)
        fen' = true) :=
  tracker_solved_monotone_and_append_only witnessTracker "FENX" witnessOps
    (by decide) (by decide)

end TrackerTheorems

section DataManagerTheorems

/-- **C9.** Filter reversibility: starting from a manager whose filter mode
is `show_only_unsolved = true` and whose training set is the filter of its
loaded records, calling `set_show_only_unsolved true`, then `false`, then
`true`, with no tracker mutation in between, restores exactly the same
training set (same records, same order). -/
theorem set_show_only_unsolved_toggle_reversible (m : BlunderDataManager)
    (hmode : m.show_only_unsolved = true)
    (hset : m.training_blunders =
      filterTrainingBlunders m.threshold true m.learned_tracker
        m.all_blunders_from_file) :
    (set_show_only_unsolved (set_show_only_unsolved
        (set_show_only_unsolved m true) false) true).training_blunders =
      m.training_blunders := by
  unfold set_show_only_unsolved filter_and_sort_training_blunders
  simp [hmode]
  exact hset.symm

/-- A record with no populated keys; every filter classifies it malformed. -/
def malformedRaw : RawBlunder := ⟨none, none, none, none⟩

/-- A manager state for the C9 witness: unsolved-only mode, one malformed
loaded record, consistent (empty) training set. -/
def witnessManager : BlunderDataManager :=
  { threshold := 1/10
    all_blunders_from_file := [malformedRaw]
    training_blunders := []
    current_index := -1
    learned_tracker := emptyTracker
    show_only_unsolved := true }

/-- Witness for C9 at a concrete manager state. -/
theorem set_show_only_unsolved_toggle_reversible_witness :
    (set_show_only_unsolved (set_show_only_unsolved
        (set_show_only_unsolved witnessManager true) false) true).training_blunders =
      witnessManager.training_blunders :=
  set_show_only_unsolved_toggle_reversible witnessManager rfl (by decide)

/-- **C10.** From the reset cursor (`current_index = -1`): `next_blunder`
enters at index 0, but `prev_blunder` lands on `(n - 2) % n` — the
second-to-last record (never the last) whenever the set has at least two
records; on an empty training set both operations leave the cursor at `-1`
and `get_current_blunder` returns nothing. -/
theorem cursor_from_reset_state (m : BlunderDataManager)
    (hidx : m.current_index = -1) :
    (m.training_blunders ≠ [] →
      (next_blunder m).current_index = 0 ∧
      (prev_blunder m).current_index =
        ((m.training_blunders.length : Int) - 2) %
          (m.training_blunders.length : Int)) ∧
    (2 ≤ m.training_blunders.length →
      (prev_blunder m).current_index =
          (m.training_blunders.length : Int) - 2 ∧
      (prev_blunder m).current_index ≠
          (m.training_blunders.length : Int) - 1) ∧
    (m.training_blunders = [] →
      (next_blunder m).current_index = -1 ∧
      (prev_blunder m).current_index = -1 ∧
      get_current_blunder (next_blunder m) = none ∧
      get_current_blunder (prev_blunder m) = none) := by
  refine ⟨?_, ?_, ?_⟩
  · intro hne
    refine ⟨?_, ?_⟩
    · unfold next_blunder
      split
      · show (m.current_index + 1) % (m.training_blunders.length : Int) = 0
        rw [hidx]
        simp
      · next hno => exact absurd hne hno
    · unfold prev_blunder
      split
      · show (m.current_index - 1 + (m.training_blunders.length : Int)) %
            (m.training_blunders.length : Int) = _
        rw [hidx]
        rw [show (-1 - 1 + (m.training_blunders.length : Int)) =
          (m.training_blunders.length : Int) - 2 by ring]
      · next hno => exact absurd hne hno
  · intro hlen
    have hne : m.training_blunders ≠ [] := by
      intro hx; rw [hx] at hlen; simp at hlen
    have h2 : (2 : Int) ≤ (m.training_blunders.length : Int) := by
      exact_mod_cast hlen
    have key : (prev_blunder m).current_index =
        (m.training_blunders.length : Int) - 2 := by
      unfold prev_blunder
      split
      · show (m.current_index - 1 + (m.training_blunders.length : Int)) %
            (m.training_blunders.length : Int) = _
        rw [hidx]
        rw [show (-1 - 1 + (m.training_blunders.length : Int)) =
          (m.training_blunders.length : Int) - 2 by ring]
        exact Int.emod_eq_of_lt (by omega) (by omega)
      · next hno => exact absurd hne hno
    refine ⟨key, ?_⟩
    rw [key]
    omega
  · intro hempty
    unfold next_blunder prev_blunder get_current_blunder
    simp [hempty, hidx]

/-- A manager with three (identical, malformed) training records and a reset
cursor, for the C10 witness. -/
def witnessManager3 : BlunderDataManager :=
  { threshold := 1/10
    all_blunders_from_file := [malformedRaw, malformedRaw, malformedRaw]
    training_blunders := [malformedRaw, malformedRaw, malformedRaw]
    current_index := -1
    learned_tracker := emptyTracker
    show_only_unsolved := false }

/-- Witness for C10 at a concrete three-record manager. -/
theorem cursor_from_reset_state_witness :
    (witnessManager3.training_blunders ≠ [] →
      (next_blunder witnessManager3).current_index = 0 ∧
      (prev_blunder witnessManager3).current_index =
        ((witnessManager3.training_blunders.length : Int) - 2) %
          (witnessManager3.training_blunders.length : Int)) ∧
    (2 ≤ witnessManager3.training_blunders.length →
      (prev_blunder witnessManager3).current_index =
          (witnessManager3.training_blunders.length : Int) - 2 ∧
      (prev_blunder witnessManager3).current_index ≠
          (witnessManager3.training_blunders.length : Int) - 1) ∧
    (witnessManager3.training_blunders = [] →
      (next_blunder witnessManager3).current_index = -1 ∧
      (prev_blunder witnessManager3).current_index = -1 ∧
      get_current_blunder (next_blunder witnessManager3) = none ∧
      get_current_blunder (prev_blunder witnessManager3) = none) :=
  cursor_from_reset_state witnessManager3 rfl

end DataManagerTheorems

section ResumeTheorems

/-- **C7.** Resume initialisation: with an existing report whose stored path
equals the current absolute archive path, the scan starts at
`last_game_index_processed + 1` with the previously accumulated blunders;
an absent, unreadable, or old-format file, or a path mismatch, starts a
fresh scan with an empty list; and the skip phase either skips exactly the
requested number of games (archive long enough) or, on premature end of
file, discards the resume state and restarts from game 0. -/
theorem resume_and_skip_behavior :
    (∀ (p : String) (last : Int) (bl : List BlunderRecord),
      resumeInit (OutputFileState.valid (some p) (some last) bl) p =
        (last + 1, bl)) ∧
    (∀ p : String,
      resumeInit OutputFileState.absent p = (0, []) ∧
      resumeInit OutputFileState.unreadable p = (0, []) ∧
      resumeInit OutputFileState.oldFormat p = (0, [])) ∧
    (∀ (p : String) (q : Option String) (last : Option Int)
        (bl : List BlunderRecord), q ≠ some p →
      resumeInit (OutputFileState.valid q last bl) p = (0, [])) ∧
    (∀ (s : Int) (n : Nat) (bl : List BlunderRecord),
      0 < s → (n : Int) < s → skipPhase s n bl = (0, [])) ∧
    (∀ (s : Int) (n : Nat) (bl : List BlunderRecord),
      0 < s → s ≤ (n : Int) → skipPhase s n bl = (s.toNat, bl)) := by
  refine ⟨?_, ?_, ?_, ?_, ?_⟩
  · intro p last bl; simp [resumeInit]
  · intro p; refine ⟨rfl, rfl, rfl⟩
  · intro p q last bl hq; simp [resumeInit, hq]
  · intro s n bl hs hn
    unfold skipPhase
    rw [if_pos hs, if_pos hn]
  · intro s n bl hs hn
    unfold skipPhase
    rw [if_pos hs, if_neg (not_lt.mpr hn)]

/-- Witness for C7: a matching report resumes at index 10 with its loaded
blunders; absent and mismatched files start fresh; skipping 10 games in a
5-game archive resets, in a 30-game archive it proceeds. -/
theorem resume_and_skip_behavior_witness :
    resumeInit (OutputFileState.valid (some "/a/games.pgn") (some 9)
        [witnessRecord]) "/a/games.pgn" = (10, [witnessRecord]) ∧
    resumeInit OutputFileState.absent "/a/games.pgn" = (0, []) ∧
    resumeInit (OutputFileState.valid (some "/b/other.pgn") (some 9)
        [witnessRecord]) "/a/games.pgn" = (0, []) ∧
    skipPhase 10 5 [witnessRecord] = (0, []) ∧
    skipPhase 10 30 [witnessRecord] = ((10 : Int).toNat, [witnessRecord]) :=
  ⟨resume_and_skip_behavior.1 "/a/games.pgn" 9 [witnessRecord],
   (resume_and_skip_behavior.2.1 "/a/games.pgn").1,
   resume_and_skip_behavior.2.2.1 "/a/games.pgn" (some "/b/other.pgn")
     (some 9) [witnessRecord] (by decide),
   resume_and_skip_behavior.2.2.2.1 10 5 [witnessRecord] (by decide)
     (by decide),
   resume_and_skip_behavior.2.2.2.2 10 30 [witnessRecord] (by decide)
     (by decide)⟩

end ResumeTheorems

section LoopTheorems

/-- A sample confirmed record used as payload in the loop-model inputs. -/
def sampleRecord : BlunderRecord :=
  { game_date := "2024.02.02"
    game_index_in_pgn_file := 1
    ply_number := 8
    player_color := "white"
    fen_before_blunder := "FENS"
    blunder_move_uci := "a2a3"
    blunder_move_san := "a3"
    p_win_optimal_9M_before := 1/2
    p_win_after_move_9M := 1/4
    p_win_drop_9M := 1/4
    p_win_optimal_136M_before := 1/2
    p_win_after_move_136M := 1/4
    p_win_drop_136M := 1/4
    top_moves_9M_before_blunder := []
    top_moves_136M_before_blunder := [] }

/-- Counterexample to **C5** as stated.  The session loop has no per-game
handler: when game 0 raises, the exception escapes the `while` loop to the
function-level `except`, so the scan is aborted and game 1 — although a
well-formed game with a blunder — is never attempted.  The claim's "the scan
is not aborted, and the next game in the archive is attempted" fails at this
concrete two-game archive. -/
theorem per_game_error_counterexample :
    (GameStep.err [] "boom").isErr = true ∧
    (scanLoop 0 0 []
      [GameStep.err [] "boom", GameStep.ok [sampleRecord]]).abortedByError =
        true ∧
    (scanLoop 0 0 []
        [GameStep.err [] "boom", GameStep.ok [sampleRecord]]).gamesAttempted ≠
      2 := by
  refine ⟨rfl, rfl, ?_⟩
  decide

/-- **C5 (amended).** A per-game error is caught (and logged) only by the
function-level handler: it ends the loop, so exactly the erroring game was
attempted from that point on and no later game is processed; the
function still returns the report accumulated so far (including records
appended earlier in the erroring game) rather than propagating the
exception to the caller. -/
theorem per_game_error_aborts_with_report (gi sess : Nat)
    (acc recsBefore : List BlunderRecord) (msg : String)
    (gs : List GameStep) :
    (scanLoop gi sess acc
        (GameStep.err recsBefore msg :: gs)).gamesAttempted = 1 ∧
    (scanLoop gi sess acc
        (GameStep.err recsBefore msg :: gs)).abortedByError = true ∧
    (scanLoop gi sess acc (GameStep.err recsBefore msg :: gs)).blunders =
      acc ++ recsBefore ∧
    scan_pgn_file_outcome true acc (GameStep.err recsBefore msg :: gs) =
      some (scanLoop 0 0 acc (GameStep.err recsBefore msg :: gs)) :=
  ⟨rfl, rfl, rfl, rfl⟩

/-- Counterexample to **C6** as stated.  A missing PGN file raises
`FileNotFoundError`, whose handler returns `None` — nothing — even when the
resume step had already loaded accumulated blunders; the claim said the
best-effort report is still returned. -/
theorem missing_archive_counterexample :
    scan_pgn_file_outcome false [sampleRecord]
      [GameStep.ok [sampleRecord]] = none := rfl

/-- **C6 (amended).** Only a missing PGN file (`FileNotFoundError` from
`open`) makes `scan_pgn_file` return `None`; any error raised while reading
games is caught by the generic handler, which aborts the loop but returns
the accumulated report, so partial progress is preserved in that case. -/
theorem scan_outcome_by_archive_state (loaded : List BlunderRecord)
    (games : List GameStep) :
    scan_pgn_file_outcome false loaded games = none ∧
    scan_pgn_file_outcome true loaded games =
      some (scanLoop 0 0 loaded games) ∧
    ∀ (gi sess : Nat) (acc recs : List BlunderRecord) (msg : String)
        (gs : List GameStep),
      (scanLoop gi sess acc (GameStep.err recs msg :: gs)).blunders =
        acc ++ recs :=
  ⟨rfl, rfl, fun _ _ _ _ _ _ => rfl⟩

/-- The C8 counterexample archive: nine games featuring the tracked player,
then one game without them. -/
def c8Games : List GameStep :=
  List.replicate 9 (GameStep.ok []) ++ [GameStep.noTracked]

/-- Counterexample to **C8** as stated.  Ten games are processed in the
session (the session counter reaches 10, a multiple of
`SAVE_PROGRESS_EVERY_N_GAMES`), but the tenth has no tracked player, so the
`continue` jumps over the checkpoint block and nothing is ever serialized —
the claim said a checkpoint follows every 10 processed games including games
in which the tracked player does not appear. -/
theorem checkpoint_missed_on_untracked_tenth_game :
    c8Games.length = 10 ∧
    (scanLoop 0 0 [] c8Games).gamesAttempted = 10 ∧
    (scanLoop 0 0 [] c8Games).abortedByError = false ∧
    (scanLoop 0 0 [] c8Games).writes = [] := by
  decide

/-- **C8 (amended).** Characterisation of the checkpoint writes of an
error-free session: the report is serialized exactly after the games in
which the tracked player appears and whose session count is a multiple of
`SAVE_PROGRESS_EVERY_N_GAMES`; each write carries the game's archive index
and the entire blunder list accumulated so far (starting list plus every
record of the games processed up to and including that one).  Games without
the tracked player advance the session counter but never trigger a write. -/
theorem scanLoop_writes_characterisation (games : List GameStep) :
    ∀ (gi sess : Nat) (acc : List BlunderRecord),
      (∀ g ∈ games, g.isErr = false) →
      ∀ (i : Nat) (bs : List BlunderRecord),
        ((i, bs) ∈ (scanLoop gi sess acc games).writes ↔
          ∃ j recs, games.get? j = some (GameStep.ok recs) ∧ i = gi + j ∧
            (sess + j + 1) % SAVE_PROGRESS_EVERY_N_GAMES = 0 ∧
            bs = acc ++ accumRecs (games.take (j + 1))) := by
  induction games with
  | nil =>
    intro gi sess acc _ i bs
    simp [scanLoop]
  | cons g gs ih =>
    intro gi sess acc herr i bs
    have hg : g.isErr = false := herr g (List.mem_cons_self _ _)
    have htail : ∀ g' ∈ gs, g'.isErr = false := fun g' hg' =>
      herr g' (List.mem_cons_of_mem _ hg')
    cases g with
    | err recs msg => exact absurd hg (by simp [GameStep.isErr])
    | noTracked =>
      rw [show (scanLoop gi sess acc (GameStep.noTracked :: gs)).writes =
        (scanLoop (gi + 1) (sess + 1) acc gs).writes from rfl]
      rw [ih (gi + 1) (sess + 1) acc htail i bs]
      constructor
      · rintro ⟨j, recs, hget, hi, hmod, hbs⟩
        refine ⟨j + 1, recs, ?_, by omega, ?_, ?_⟩
        · simpa using hget
        · rw [show sess + (j + 1) + 1 = sess + 1 + j + 1 by omega]
          exact hmod
        · rw [hbs]
          rw [show (GameStep.noTracked :: gs).take (j + 1 + 1) =
            GameStep.noTracked :: gs.take (j + 1) from rfl]
          rw [show accumRecs (GameStep.noTracked :: gs.take (j + 1)) =
            accumRecs (gs.take (j + 1)) from by simp [accumRecs, GameStep.recsOf]]
      · rintro ⟨j, recs, hget, hi, hmod, hbs⟩
        cases j with
        | zero => exact absurd hget (by simp)
        | succ j' =>
          refine ⟨j', recs, by simpa using hget, by omega, ?_, ?_⟩
          · rw [show sess + 1 + j' + 1 = sess + (j' + 1) + 1 by omega]
            exact hmod
          · rw [hbs]
            rw [show (GameStep.noTracked :: gs).take (j' + 1 + 1) =
              GameStep.noTracked :: gs.take (j' + 1) from rfl]
            rw [show accumRecs (GameStep.noTracked :: gs.take (j' + 1)) =
              accumRecs (gs.take (j' + 1)) from by
                simp [accumRecs, GameStep.recsOf]]
    | ok recs0 =>
      rw [show (scanLoop gi sess acc (GameStep.ok recs0 :: gs)).writes =
        (if (sess + 1) % SAVE_PROGRESS_EVERY_N_GAMES = 0 then
          [(gi, acc ++ recs0)] else []) ++
          (scanLoop (gi + 1) (sess + 1) (acc ++ recs0) gs).writes from rfl]
      rw [List.mem_append]
      rw [ih (gi + 1) (sess + 1) (acc ++ recs0) htail i bs]
      constructor
      · rintro (hhead | ⟨j, recs, hget, hi, hmod, hbs⟩)
        · split at hhead
          · next hmod0 =>
            simp only [List.mem_singleton, Prod.mk.injEq] at hhead
            refine ⟨0, recs0, by simp, by omega, by simpa using hmod0, ?_⟩
            rw [hhead.2]
            rw [show (GameStep.ok recs0 :: gs).take (0 + 1) =
              [GameStep.ok recs0] from rfl]
            simp [accumRecs, GameStep.recsOf]
          · exact absurd hhead (List.not_mem_nil _)
        · refine ⟨j + 1, recs, by simpa using hget, by omega, ?_, ?_⟩
          · rw [show sess + (j + 1) + 1 = sess + 1 + j + 1 by omega]
            exact hmod
          · rw [hbs]
            rw [show (GameStep.ok recs0 :: gs).take (j + 1 + 1) =
              GameStep.ok recs0 :: gs.take (j + 1) from rfl]
            rw [show accumRecs (GameStep.ok recs0 :: gs.take (j + 1)) =
              recs0 ++ accumRecs (gs.take (j + 1)) from rfl]
            rw [List.append_assoc]
      · rintro ⟨j, recs, hget, hi, hmod, hbs⟩
        cases j with
        | zero =>
          left
          have hrecs : recs = recs0 := by
            have h := hget
            simp at h
            exact h.symm
          subst hrecs
          rw [if_pos (by simpa using hmod)]
          simp only [List.mem_singleton, Prod.mk.injEq]
          refine ⟨by omega, ?_⟩
          rw [hbs]
          rw [show (GameStep.ok recs :: gs).take (0 + 1) =
            [GameStep.ok recs] from rfl]
          simp [accumRecs, GameStep.recsOf]
        | succ j' =>
          right
          refine ⟨j', recs, by simpa using hget, by omega, ?_, ?_⟩
          · rw [show sess + 1 + j' + 1 = sess + (j' + 1) + 1 by omega]
            exact hmod
          · rw [hbs]
            rw [show (GameStep.ok recs0 :: gs).take (j' + 1 + 1) =
              GameStep.ok recs0 :: gs.take (j' + 1) from rfl]
            rw [show accumRecs (GameStep.ok recs0 :: gs.take (j' + 1)) =
              recs0 ++ accumRecs (gs.take (j' + 1)) from rfl]
            rw [List.append_assoc]

/-- The C8 witness archive: ten games with the tracked player, one record
each. -/
def c8WitnessGames : List GameStep :=
  List.replicate 10 (GameStep.ok [sampleRecord])

/-- Witness for the amended C8 at a concrete session: the characterisation
instantiated at the tenth game's index and the ten accumulated records. -/
theorem scanLoop_writes_characterisation_witness :
    ((9, List.replicate 10 sampleRecord) ∈
        (scanLoop 0 0 [] c8WitnessGames).writes ↔
      ∃ j recs, c8WitnessGames.get? j = some (GameStep.ok recs) ∧ 9 = 0 + j ∧
        (0 + j + 1) % SAVE_PROGRESS_EVERY_N_GAMES = 0 ∧
        List.replicate 10 sampleRecord =
          [] ++ accumRecs (c8WitnessGames.take (j + 1))) :=
  scanLoop_writes_characterisation c8WitnessGames 0 0 [] (by decide) 9
    (List.replicate 10 sampleRecord)

end LoopTheorems

section FilterTheorems

/-- **C2.** Fake-blunder exclusion: whenever a record's blunder move equals
the first entry of its own recorded tier-1 top-move list, the filter
classifies it — before and independently of the threshold rule and the
filter mode — as `fake_blunder_negligible_drop` when the recorded drop is
below `NEGLIGIBLE_PWIN_DROP_FOR_FAKE_BLUNDER_CHECK`, and as the
`fake_blunder_significant_drop_anomaly` data-anomaly bucket otherwise; in
both cases the record never appears in the training set, for any threshold,
mode, tracker state, and loaded file. -/
theorem fake_blunder_never_in_training_set (threshold : Rat)
    (show_only_unsolved : Bool) (learned_tracker : LearnedBlunderTracker)
    (b : RawBlunder) (drop : Rat) (fen uci : String) (m0 : RawTopMove)
    (rest : List RawTopMove)
    (hdrop : b.p_win_drop_9M = some drop)
    (hfen : b.fen_before_blunder = some fen)
    (huci : b.blunder_move_uci = some uci)
    (htop : b.top_moves_9M_before_blunder = some (m0 :: rest))
    (hm0 : m0.uci = some uci) :
    classifyBlunder threshold show_only_unsolved learned_tracker b =
      (if drop < NEGLIGIBLE_PWIN_DROP_FOR_FAKE_BLUNDER_CHECK then
        FilterVerdict.fake_blunder_negligible_drop
      else FilterVerdict.fake_blunder_significant_drop_anomaly) ∧
    ∀ all_blunders_from_file : List RawBlunder,
      b ∉ filterTrainingBlunders threshold show_only_unsolved learned_tracker
        all_blunders_from_file := by
  have h1 : classifyBlunder threshold show_only_unsolved learned_tracker b =
      (if drop < NEGLIGIBLE_PWIN_DROP_FOR_FAKE_BLUNDER_CHECK then
        FilterVerdict.fake_blunder_negligible_drop
      else FilterVerdict.fake_blunder_significant_drop_anomaly) := by
    unfold classifyBlunder
    rw [hdrop, hfen, huci, htop]
    simp [hm0]
  refine ⟨h1, ?_⟩
  intro all hmem
  rw [filterTrainingBlunders, List.mem_filter] at hmem
  have h2 := hmem.2
  rw [h1] at h2
  split at h2 <;> simp at h2

/-- The C2 witness record: its recorded blunder move `e2e4` is also the
first move of its recorded tier-1 top list, with a clearly significant
recorded drop. -/
def fakeBlunderRaw : RawBlunder :=
  { p_win_drop_9M := some (1/5)
    fen_before_blunder := some "FENF"
    blunder_move_uci := some "e2e4"
    top_moves_9M_before_blunder := some [{ uci := some "e2e4" }] }

/-- Witness for C2 at the concrete self-contradictory record, in
unsolved-only mode with threshold 1/20. -/
theorem fake_blunder_never_in_training_set_witness :
    classifyBlunder (1/20) true emptyTracker fakeBlunderRaw =
      (if (1/5 : Rat) < NEGLIGIBLE_PWIN_DROP_FOR_FAKE_BLUNDER_CHECK then
        FilterVerdict.fake_blunder_negligible_drop
      else FilterVerdict.fake_blunder_significant_drop_anomaly) ∧
    ∀ all_blunders_from_file : List RawBlunder,
      fakeBlunderRaw ∉ filterTrainingBlunders (1/20) true emptyTracker
        all_blunders_from_file :=
  fake_blunder_never_in_training_set (1/20) true emptyTracker fakeBlunderRaw
    (1/5) "FENF" "e2e4" { uci := some "e2e4" } [] rfl rfl rfl rfl rfl

end FilterTheorems
